import Mathlib

/-
Shallow embedding of the form-analysis engine `FormAnalyzer` from
src/components/CameraComponent.tsx (lines 540-927).

Numbers are modelled as real numbers.  Real division follows Lean's
convention x / 0 = 0; the source's IEEE NaN behaviour on the one spot
where it matters (calculateAngle on zero-length vectors, where the float
computation produces 0/0 = NaN) is modelled separately by
`calculateAngleJS`, which returns `none` when the float result is NaN.

The call to Math.random() inside detectPressMovement is modelled by an
explicit `rand` argument threaded through `analyze` and `analyzeBench`.
A null `poseData` argument is modelled by `Option PoseData`, and a
missing `keypoints` field by `PoseData.keypoints : Option Keypoints`.
-/

namespace FormAnalyzer

noncomputable section

/-- KeyPoint (source lines 540-545): a 2D position with optional depth and
visibility. -/
structure KeyPoint where
  x : ℝ
  y : ℝ
  z : Option ℝ := none
  visibility : Option ℝ := none

/-- The keypoints mapping of PoseData (source line 548): landmark name to
KeyPoint; `none` means the key is absent from the frame. -/
abbrev Keypoints := String → Option KeyPoint

/-- PoseData (source lines 547-550).  `keypoints := none` models a pose
object whose keypoints field is missing (the `!poseData.keypoints` guard). -/
structure PoseData where
  keypoints : Option Keypoints
  timestamp : ℝ

/-- FormFeedback (source lines 552-558).  Optional fields that the source
leaves undefined are `none`. -/
structure FormFeedback where
  score : ℝ
  feedback : List String
  errors : List String
  repCompleted : Option Bool := none
  details : Option (List (String × ℝ)) := none

/-- Default used to read a keypoint after a presence check has succeeded;
the source accesses `keypoints[name]` directly at such places. -/
def defaultKeyPoint : KeyPoint := { x := 0, y := 0 }

/-- Read a landmark from the map (only ever meaningful after the presence
check `hasRequiredPoints` has succeeded, mirroring the source's direct
property access). -/
def get (kps : Keypoints) (name : String) : KeyPoint :=
  (kps name).getD defaultKeyPoint

/-- The `requiredPoints.every(point => keypoints[point])` check
(source lines 586, 698, 788). -/
def hasRequiredPoints (kps : Keypoints) (requiredPoints : List String) : Bool :=
  requiredPoints.all fun point => (kps point).isSome

/-- Required landmark list of analyzeSquat (source line 585). -/
def squatRequiredPoints : List String :=
  ["leftHip", "rightHip", "leftKnee", "rightKnee", "leftAnkle", "rightAnkle"]

/-- Required landmark list of analyzeBench (source line 697). -/
def benchRequiredPoints : List String :=
  ["leftShoulder", "rightShoulder", "leftElbow", "rightElbow", "leftWrist", "rightWrist"]

/-- Required landmark list of analyzeDeadlift (source line 787). -/
def deadliftRequiredPoints : List String :=
  ["leftShoulder", "rightShoulder", "leftHip", "rightHip", "leftKnee", "rightKnee"]

/-- calculateAngle (source lines 879-895): angle at vertex point2 in degrees,
cosine clamped into [-1, 1] before arccos.  Real-number model: division by a
zero magnitude follows Lean's x / 0 = 0 convention. -/
def calculateAngle (point1 point2 point3 : KeyPoint) : ℝ :=
  let v1x := point1.x - point2.x
  let v1y := point1.y - point2.y
  let v2x := point3.x - point2.x
  let v2y := point3.y - point2.y
  let dot := v1x * v2x + v1y * v2y
  let mag1 := Real.sqrt (v1x ^ 2 + v1y ^ 2)
  let mag2 := Real.sqrt (v2x ^ 2 + v2y ^ 2)
  Real.arccos (max (-1) (min 1 (dot / (mag1 * mag2)))) * 180 / Real.pi

/-- calculateAngle with the source's IEEE float corner case made explicit.
When mag1 * mag2 = 0 the numerator dot is also 0 (a zero magnitude forces a
zero vector), so the source computes 0/0 = NaN, which propagates through
Math.min, Math.max, Math.acos and the final multiplications; the function
then returns NaN, modelled here as `none`.  On a nonzero denominator the
float computation is a plain real computation, modelled as `some`. -/
def calculateAngleJS (point1 point2 point3 : KeyPoint) : Option ℝ :=
  let v1x := point1.x - point2.x
  let v1y := point1.y - point2.y
  let v2x := point3.x - point2.x
  let v2y := point3.y - point2.y
  let dot := v1x * v2x + v1y * v2y
  let mag1 := Real.sqrt (v1x ^ 2 + v1y ^ 2)
  let mag2 := Real.sqrt (v2x ^ 2 + v2y ^ 2)
  if mag1 * mag2 = 0 then none
  else some (Real.arccos (max (-1) (min 1 (dot / (mag1 * mag2)))) * 180 / Real.pi)

/-- Model of JavaScript Math.atan2 on real arguments (used by the deadlift
back-angle computation, source lines 815-818). -/
def atan2 (y x : ℝ) : ℝ :=
  if 0 < x then Real.arctan (y / x)
  else if x < 0 then
    (if 0 ≤ y then Real.arctan (y / x) + Real.pi else Real.arctan (y / x) - Real.pi)
  else
    (if 0 < y then Real.pi / 2 else if y < 0 then -(Real.pi / 2) else 0)

/-- detectBottomPosition (source lines 897-903): hips below knees in image
coordinates. -/
def detectBottomPosition (keypoints : Keypoints) : Bool :=
  let hipHeight := ((get keypoints "leftHip").y + (get keypoints "rightHip").y) / 2
  let kneeHeight := ((get keypoints "leftKnee").y + (get keypoints "rightKnee").y) / 2
  decide (hipHeight > kneeHeight)

/-- detectPressMovement (source lines 905-908): the source returns
`Math.random() > 0.8` and ignores its poseData argument; `rand` models the
value sampled from Math.random(). -/
def detectPressMovement (rand : ℝ) : Bool :=
  decide (rand > 0.8)

/-- detectDeadliftMovement (source lines 910-924): torso is upright when the
horizontal offset between shoulder-center and hip-center is below 0.05. -/
def detectDeadliftMovement (keypoints : Keypoints) : Bool :=
  let hipCenterX := ((get keypoints "leftHip").x + (get keypoints "rightHip").x) / 2
  let shoulderCenterX :=
    ((get keypoints "leftShoulder").x + (get keypoints "rightShoulder").x) / 2
  let torsoAngle := |shoulderCenterX - hipCenterX|
  decide (torsoAngle < 0.05)

/-- Squat depth ratio (source lines 604-607).  Note the source's denominator
uses leftAnkle.y, not the average of the two ankle heights. -/
def squatDepthRatio (keypoints : Keypoints) : ℝ :=
  let hipHeight := ((get keypoints "leftHip").y + (get keypoints "rightHip").y) / 2
  let kneeHeight := ((get keypoints "leftKnee").y + (get keypoints "rightKnee").y) / 2
  (kneeHeight - hipHeight) / ((get keypoints "leftAnkle").y - hipHeight)

/-- Squat knee-collapse ratio (source lines 619-622). -/
def squatKneeCollapseRatio (keypoints : Keypoints) : ℝ :=
  let kneeWidth := |(get keypoints "rightKnee").x - (get keypoints "leftKnee").x|
  let hipWidth := |(get keypoints "rightHip").x - (get keypoints "leftHip").x|
  kneeWidth / hipWidth

/-- Squat forward lean (source lines 634-646): 0 unless both shoulders are
present, otherwise the horizontal offset between shoulder-center and
hip-center. -/
def squatForwardLeanMetric (keypoints : Keypoints) : ℝ :=
  if (keypoints "leftShoulder").isSome && (keypoints "rightShoulder").isSome then
    let shoulderCenterX :=
      ((get keypoints "leftShoulder").x + (get keypoints "rightShoulder").x) / 2
    let hipCenterX := ((get keypoints "leftHip").x + (get keypoints "rightHip").x) / 2
    |shoulderCenterX - hipCenterX|
  else 0

/-- Squat leg-length asymmetry (source lines 659-666). -/
def squatAsymmetry (keypoints : Keypoints) : ℝ :=
  let leftLegLength :=
    Real.sqrt (((get keypoints "leftKnee").x - (get keypoints "leftHip").x) ^ 2 +
      ((get keypoints "leftKnee").y - (get keypoints "leftHip").y) ^ 2)
  let rightLegLength :=
    Real.sqrt (((get keypoints "rightKnee").x - (get keypoints "rightHip").x) ^ 2 +
      ((get keypoints "rightKnee").y - (get keypoints "rightHip").y) ^ 2)
  |leftLegLength - rightLegLength| / max leftLegLength rightLegLength

/-- analyzeSquat (source lines 578-688).  The imperative score/feedback/error
accumulation is rendered as one let per rule and per accumulator, in the
source's rule order. -/
def analyzeSquat (keypoints : Keypoints) : FormFeedback :=
  if hasRequiredPoints keypoints squatRequiredPoints then
    let depthRatio := squatDepthRatio keypoints
    let score1 : ℝ :=
      if depthRatio < 0.1 then 100 - 25 else if depthRatio < 0.3 then 100 - 5 else 100
    let feedback1 : List String :=
      if depthRatio < 0.1 then []
      else if depthRatio < 0.3 then ["Good depth! Try to go slightly deeper"]
      else ["Excellent depth!"]
    let errors1 : List String :=
      if depthRatio < 0.1 then ["Squat deeper - hips need to go below knee level"] else []
    let kneeCollapseRatio := squatKneeCollapseRatio keypoints
    let score2 :=
      if kneeCollapseRatio < 0.7 then score1 - 30
      else if kneeCollapseRatio < 0.85 then score1 - 10 else score1
    let feedback2 :=
      if kneeCollapseRatio < 0.7 then feedback1
      else if kneeCollapseRatio < 0.85 then
        feedback1 ++ ["Watch knee alignment - keep them tracking over toes"]
      else feedback1 ++ ["Great knee tracking!"]
    let errors2 :=
      if kneeCollapseRatio < 0.7 then errors1 ++ ["Knees caving in - push knees out over toes"]
      else errors1
    let hasShoulders := (keypoints "leftShoulder").isSome && (keypoints "rightShoulder").isSome
    let forwardLean := squatForwardLeanMetric keypoints
    let score3 :=
      if hasShoulders then
        (if forwardLean > 0.1 then score2 - 20
         else if forwardLean > 0.05 then score2 - 5 else score2)
      else score2
    let feedback3 :=
      if hasShoulders then
        (if forwardLean > 0.1 then feedback2
         else if forwardLean > 0.05 then
           feedback2 ++ ["Slight forward lean - focus on keeping chest up"]
         else feedback2 ++ ["Good upright posture!"])
      else feedback2
    let errors3 :=
      if hasShoulders then
        (if forwardLean > 0.1 then errors2 ++ ["Too much forward lean - keep chest up"]
         else errors2)
      else errors2
    let asymmetry := squatAsymmetry keypoints
    let score4 := if asymmetry > 0.15 then score3 - 15 else score3
    let errors4 :=
      if asymmetry > 0.15 then errors3 ++ ["Uneven squat - check your stance and balance"]
      else errors3
    let repCompleted := decide (depthRatio > 0.2) && detectBottomPosition keypoints
    { score := max 0 score4
      feedback := feedback3
      errors := errors4
      repCompleted := some repCompleted
      details := some [("depth", depthRatio), ("kneeTracking", kneeCollapseRatio),
        ("forwardLean", forwardLean), ("symmetry", asymmetry)] }
  else
    { score := 0
      feedback := ["Position yourself so your full body is visible"]
      errors := ["Incomplete pose detection"] }

/-- Bench average elbow angle (source lines 715-718). -/
def benchAvgElbowAngle (keypoints : Keypoints) : ℝ :=
  let leftElbowAngle :=
    calculateAngle (get keypoints "leftShoulder") (get keypoints "leftElbow")
      (get keypoints "leftWrist")
  let rightElbowAngle :=
    calculateAngle (get keypoints "rightShoulder") (get keypoints "rightElbow")
      (get keypoints "rightWrist")
  (leftElbowAngle + rightElbowAngle) / 2

/-- Bench bar-path deviation (source lines 730-740). -/
def benchBarDeviation (keypoints : Keypoints) : ℝ :=
  let wristCenterX := ((get keypoints "leftWrist").x + (get keypoints "rightWrist").x) / 2
  let shoulderCenterX :=
    ((get keypoints "leftShoulder").x + (get keypoints "rightShoulder").x) / 2
  |wristCenterX - shoulderCenterX|

/-- Bench arm-extension asymmetry (source lines 751-758). -/
def benchAsymmetry (keypoints : Keypoints) : ℝ :=
  let leftArmExtension :=
    Real.sqrt (((get keypoints "leftWrist").x - (get keypoints "leftShoulder").x) ^ 2 +
      ((get keypoints "leftWrist").y - (get keypoints "leftShoulder").y) ^ 2)
  let rightArmExtension :=
    Real.sqrt (((get keypoints "rightWrist").x - (get keypoints "rightShoulder").x) ^ 2 +
      ((get keypoints "rightWrist").y - (get keypoints "rightShoulder").y) ^ 2)
  |leftArmExtension - rightArmExtension| / max leftArmExtension rightArmExtension

/-- analyzeBench (source lines 690-778); `rand` models the Math.random()
sample consumed by detectPressMovement. -/
def analyzeBench (keypoints : Keypoints) (rand : ℝ) : FormFeedback :=
  if hasRequiredPoints keypoints benchRequiredPoints then
    let avgElbowAngle := benchAvgElbowAngle keypoints
    let score1 : ℝ :=
      if avgElbowAngle > 100 then 100 - 25 else if avgElbowAngle > 85 then 100 - 10 else 100
    let feedback1 : List String :=
      if avgElbowAngle > 100 then []
      else if avgElbowAngle > 85 then
        ["Slight elbow flare - try to keep elbows at 45-degree angle"]
      else ["Good elbow position!"]
    let errors1 : List String :=
      if avgElbowAngle > 100 then ["Elbows too flared - bring them closer to your body"]
      else []
    let barDeviation := benchBarDeviation keypoints
    let score2 :=
      if barDeviation > 0.08 then score1 - 20
      else if barDeviation > 0.04 then score1 - 5 else score1
    let feedback2 :=
      if barDeviation > 0.08 then feedback1
      else if barDeviation > 0.04 then
        feedback1 ++ ["Minor bar drift - focus on straight up and down"]
      else feedback1 ++ ["Great bar path!"]
    let errors2 :=
      if barDeviation > 0.08 then errors1 ++ ["Bar drifting - keep it over your shoulders"]
      else errors1
    let asymmetry := benchAsymmetry keypoints
    let score3 := if asymmetry > 0.1 then score2 - 15 else score2
    let errors3 :=
      if asymmetry > 0.1 then errors2 ++ ["Uneven press - check your grip and shoulder position"]
      else errors2
    let repCompleted := detectPressMovement rand
    { score := max 0 score3
      feedback := feedback2
      errors := errors3
      repCompleted := some repCompleted
      details := some [("elbowAngle", avgElbowAngle), ("barPath", barDeviation),
        ("symmetry", asymmetry)] }
  else
    { score := 0
      feedback := ["Position camera to show your upper body clearly"]
      errors := ["Incomplete pose detection"] }

/-- Deadlift back angle in degrees (source lines 805-818): angle of the
hip-center to shoulder-center vector from horizontal via atan2. -/
def deadliftBackAngle (keypoints : Keypoints) : ℝ :=
  let shoulderCenterX :=
    ((get keypoints "leftShoulder").x + (get keypoints "rightShoulder").x) / 2
  let shoulderCenterY :=
    ((get keypoints "leftShoulder").y + (get keypoints "rightShoulder").y) / 2
  let hipCenterX := ((get keypoints "leftHip").x + (get keypoints "rightHip").x) / 2
  let hipCenterY := ((get keypoints "leftHip").y + (get keypoints "rightHip").y) / 2
  atan2 (shoulderCenterY - hipCenterY) (shoulderCenterX - hipCenterX) * 180 / Real.pi

/-- Deadlift hip-to-knee distance (source lines 830-838). -/
def deadliftHipHinge (keypoints : Keypoints) : ℝ :=
  let hipCenterX := ((get keypoints "leftHip").x + (get keypoints "rightHip").x) / 2
  let hipCenterY := ((get keypoints "leftHip").y + (get keypoints "rightHip").y) / 2
  let kneeCenterX := ((get keypoints "leftKnee").x + (get keypoints "rightKnee").x) / 2
  let kneeCenterY := ((get keypoints "leftKnee").y + (get keypoints "rightKnee").y) / 2
  Real.sqrt ((hipCenterX - kneeCenterX) ^ 2 + (hipCenterY - kneeCenterY) ^ 2)

/-- Deadlift knee-over-toes offset (source lines 850-857): horizontal offset
between knee-center and ankle-center (only consulted when both ankles are
present). -/
def deadliftKneeOverToes (keypoints : Keypoints) : ℝ :=
  let kneeCenterX := ((get keypoints "leftKnee").x + (get keypoints "rightKnee").x) / 2
  let ankleCenterX := ((get keypoints "leftAnkle").x + (get keypoints "rightAnkle").x) / 2
  |kneeCenterX - ankleCenterX|

/-- analyzeDeadlift (source lines 780-876). -/
def analyzeDeadlift (keypoints : Keypoints) : FormFeedback :=
  if hasRequiredPoints keypoints deadliftRequiredPoints then
    let backAngle := deadliftBackAngle keypoints
    let score1 : ℝ :=
      if |backAngle| > 30 then 100 - 30 else if |backAngle| > 15 then 100 - 10 else 100
    let feedback1 : List String :=
      if |backAngle| > 30 then []
      else if |backAngle| > 15 then ["Slight back rounding - focus on neutral spine"]
      else ["Good back position!"]
    let errors1 : List String :=
      if |backAngle| > 30 then ["Back rounding detected - keep your back straight"] else []
    let hipToKneeDistance := deadliftHipHinge keypoints
    let score2 :=
      if hipToKneeDistance < 0.1 then score1 - 25
      else if hipToKneeDistance < 0.15 then score1 - 5 else score1
    let feedback2 :=
      if hipToKneeDistance < 0.1 then feedback1
      else if hipToKneeDistance < 0.15 then
        feedback1 ++ ["Good hip hinge, try to push hips back slightly more"]
      else feedback1 ++ ["Excellent hip hinge pattern!"]
    let errors2 :=
      if hipToKneeDistance < 0.1 then errors1 ++ ["Not enough hip hinge - push your hips back"]
      else errors1
    let hasAnkles := (keypoints "leftAnkle").isSome && (keypoints "rightAnkle").isSome
    let score3 :=
      if hasAnkles then
        (if deadliftKneeOverToes keypoints > 0.08 then score2 - 15 else score2)
      else score2
    let errors3 :=
      if hasAnkles then
        (if deadliftKneeOverToes keypoints > 0.08 then
          errors2 ++ ["Knees too far forward - keep shins more vertical"]
         else errors2)
      else errors2
    let repCompleted := detectDeadliftMovement keypoints
    { score := max 0 score3
      feedback := feedback2
      errors := errors3
      repCompleted := some repCompleted
      details := some [("backAngle", |backAngle|), ("hipHinge", hipToKneeDistance)] }
  else
    { score := 0
      feedback := ["Position yourself so your full body is visible from the side"]
      errors := ["Incomplete pose detection"] }

/-- analyze (source lines 561-576): null/missing-keypoints guard, then
dispatch on the movement identifier. -/
def analyze (movement : String) (poseData : Option PoseData) (rand : ℝ) : FormFeedback :=
  match poseData with
  | none => { score := 0, feedback := [], errors := [] }
  | some pose =>
    match pose.keypoints with
    | none => { score := 0, feedback := [], errors := [] }
    | some keypoints =>
      if movement = "squat" then analyzeSquat keypoints
      else if movement = "bench" then analyzeBench keypoints rand
      else if movement = "deadlift" then analyzeDeadlift keypoints
      else { score := 0, feedback := [], errors := [] }

/-- Sum of the penalties of the squat threshold rules triggered on a frame,
written after the spec sentence that the score equals 100 minus the sum of
all penalties actually triggered, with the source's tier conditions. -/
def squatTriggeredPenalties (k : Keypoints) : ℝ :=
  (if squatDepthRatio k < 0.1 then 25 else if squatDepthRatio k < 0.3 then 5 else 0)
  + (if squatKneeCollapseRatio k < 0.7 then 30
     else if squatKneeCollapseRatio k < 0.85 then 10 else 0)
  + (if (k "leftShoulder").isSome && (k "rightShoulder").isSome then
      (if squatForwardLeanMetric k > 0.1 then 20 else if squatForwardLeanMetric k > 0.05 then 5 else 0)
     else 0)
  + (if squatAsymmetry k > 0.15 then 15 else 0)

/-- Sum of the penalties of the bench threshold rules triggered on a frame. -/
def benchTriggeredPenalties (k : Keypoints) : ℝ :=
  (if benchAvgElbowAngle k > 100 then 25 else if benchAvgElbowAngle k > 85 then 10 else 0)
  + (if benchBarDeviation k > 0.08 then 20 else if benchBarDeviation k > 0.04 then 5 else 0)
  + (if benchAsymmetry k > 0.1 then 15 else 0)

/-- Sum of the penalties of the deadlift threshold rules triggered on a frame. -/
def deadliftTriggeredPenalties (k : Keypoints) : ℝ :=
  (if |deadliftBackAngle k| > 30 then 30 else if |deadliftBackAngle k| > 15 then 10 else 0)
  + (if deadliftHipHinge k < 0.1 then 25 else if deadliftHipHinge k < 0.15 then 5 else 0)
  + (if (k "leftAnkle").isSome && (k "rightAnkle").isSome then
      (if deadliftKneeOverToes k > 0.08 then 15 else 0)
     else 0)

/-- Depth ratio as the spec describes it: (avg knee height - avg hip height)
divided by (avg ankle height - avg hip height).  This is the formula the
spec states; the source's `squatDepthRatio` instead divides by
(leftAnkle.y - avg hip height). -/
def squatDepthRatioSpec (k : Keypoints) : ℝ :=
  let hipHeight := ((get k "leftHip").y + (get k "rightHip").y) / 2
  let kneeHeight := ((get k "leftKnee").y + (get k "rightKnee").y) / 2
  let ankleHeight := ((get k "leftAnkle").y + (get k "rightAnkle").y) / 2
  (kneeHeight - hipHeight) / (ankleHeight - hipHeight)

/-- Swap of a left-labeled landmark name with its right-labeled counterpart. -/
def swapName (name : String) : String :=
  if name = "leftShoulder" then "rightShoulder"
  else if name = "rightShoulder" then "leftShoulder"
  else if name = "leftElbow" then "rightElbow"
  else if name = "rightElbow" then "leftElbow"
  else if name = "leftWrist" then "rightWrist"
  else if name = "rightWrist" then "leftWrist"
  else if name = "leftHip" then "rightHip"
  else if name = "rightHip" then "leftHip"
  else if name = "leftKnee" then "rightKnee"
  else if name = "rightKnee" then "leftKnee"
  else if name = "leftAnkle" then "rightAnkle"
  else if name = "rightAnkle" then "leftAnkle"
  else name

/-- The mirrored pose frame: every left landmark swapped with its right
counterpart. -/
def swapLR (kps : Keypoints) : Keypoints := fun name => kps (swapName name)

/-- Scenario A of the spec: a squat frame in perfect form, without
shoulders. -/
def scenarioA : Keypoints := fun name =>
  if name = "leftHip" then some { x := 0.4, y := 0.6 }
  else if name = "rightHip" then some { x := 0.6, y := 0.6 }
  else if name = "leftKnee" then some { x := 0.4, y := 0.8 }
  else if name = "rightKnee" then some { x := 0.6, y := 0.8 }
  else if name = "leftAnkle" then some { x := 0.4, y := 1.0 }
  else if name = "rightAnkle" then some { x := 0.6, y := 1.0 }
  else none

/-- A frame with no landmarks at all. -/
def emptyFrame : Keypoints := fun _ => none

/-- A frame carrying every landmark any evaluator requires. -/
def fullFrame : Keypoints := fun name =>
  if name = "leftShoulder" then some { x := 0.4, y := 0.3 }
  else if name = "rightShoulder" then some { x := 0.6, y := 0.3 }
  else if name = "leftElbow" then some { x := 0.3, y := 0.45 }
  else if name = "rightElbow" then some { x := 0.7, y := 0.45 }
  else if name = "leftWrist" then some { x := 0.4, y := 0.55 }
  else if name = "rightWrist" then some { x := 0.6, y := 0.55 }
  else if name = "leftHip" then some { x := 0.4, y := 0.6 }
  else if name = "rightHip" then some { x := 0.6, y := 0.6 }
  else if name = "leftKnee" then some { x := 0.4, y := 0.8 }
  else if name = "rightKnee" then some { x := 0.6, y := 0.8 }
  else if name = "leftAnkle" then some { x := 0.4, y := 1.0 }
  else if name = "rightAnkle" then some { x := 0.6, y := 1.0 }
  else none

/-- A squat frame whose two ankles sit at different heights, so the
source's denominator (leftAnkle.y) differs from the spec's (average ankle
height). -/
def unevenAnkleFrame : Keypoints := fun name =>
  if name = "leftHip" then some { x := 0.4, y := 0.6 }
  else if name = "rightHip" then some { x := 0.6, y := 0.6 }
  else if name = "leftKnee" then some { x := 0.4, y := 0.8 }
  else if name = "rightKnee" then some { x := 0.6, y := 0.8 }
  else if name = "leftAnkle" then some { x := 0.4, y := 1.0 }
  else if name = "rightAnkle" then some { x := 0.6, y := 0.8 }
  else none

/-- A deadlift frame whose shoulder-center and hip-center share the same
height, with the shoulder-center to the left of the hip-center. -/
def horizontalBackFrame : Keypoints := fun name =>
  if name = "leftShoulder" then some { x := 0.1, y := 0.5 }
  else if name = "rightShoulder" then some { x := 0.3, y := 0.5 }
  else if name = "leftHip" then some { x := 0.5, y := 0.5 }
  else if name = "rightHip" then some { x := 0.7, y := 0.5 }
  else if name = "leftKnee" then some { x := 0.5, y := 0.9 }
  else if name = "rightKnee" then some { x := 0.7, y := 0.9 }
  else none

/-- A deadlift frame whose shoulder-center sits directly above the
hip-center. -/
def uprightBackFrame : Keypoints := fun name =>
  if name = "leftShoulder" then some { x := 0.5, y := 0.2 }
  else if name = "rightShoulder" then some { x := 0.7, y := 0.2 }
  else if name = "leftHip" then some { x := 0.5, y := 0.6 }
  else if name = "rightHip" then some { x := 0.7, y := 0.6 }
  else if name = "leftKnee" then some { x := 0.5, y := 0.8 }
  else if name = "rightKnee" then some { x := 0.7, y := 0.8 }
  else none

/-- A deadlift frame whose shoulder-center and hip-center share the same
height, with the shoulder-center to the right of the hip-center. -/
def lockoutBackFrame : Keypoints := fun name =>
  if name = "leftShoulder" then some { x := 0.8, y := 0.5 }
  else if name = "rightShoulder" then some { x := 1.0, y := 0.5 }
  else if name = "leftHip" then some { x := 0.5, y := 0.5 }
  else if name = "rightHip" then some { x := 0.7, y := 0.5 }
  else if name = "leftKnee" then some { x := 0.5, y := 0.9 }
  else if name = "rightKnee" then some { x := 0.7, y := 0.9 }
  else none

end

end FormAnalyzer

namespace FormAnalyzer

theorem analyze_squat_eq (k : Keypoints) (t rand : ℝ) :
    analyze "squat" (some { keypoints := some k, timestamp := t }) rand = analyzeSquat k := rfl

theorem analyze_bench_eq (k : Keypoints) (t rand : ℝ) :
    analyze "bench" (some { keypoints := some k, timestamp := t }) rand =
      analyzeBench k rand := rfl

theorem analyze_deadlift_eq (k : Keypoints) (t rand : ℝ) :
    analyze "deadlift" (some { keypoints := some k, timestamp := t }) rand =
      analyzeDeadlift k := rfl

theorem tier3_sub (c1 c2 : Prop) [Decidable c1] [Decidable c2] (s a b : ℝ) :
    (if c1 then s - a else if c2 then s - b else s) =
      s - (if c1 then a else if c2 then b else 0) := by
  split_ifs <;> ring

theorem tier1_sub (c : Prop) [Decidable c] (s a : ℝ) :
    (if c then s - a else s) = s - (if c then a else 0) := by
  split_ifs <;> ring

theorem squatTriggeredPenalties_nonneg (k : Keypoints) :
    0 ≤ squatTriggeredPenalties k := by
  rw [squatTriggeredPenalties]; split_ifs <;> norm_num

theorem benchTriggeredPenalties_nonneg (k : Keypoints) :
    0 ≤ benchTriggeredPenalties k := by
  rw [benchTriggeredPenalties]; split_ifs <;> norm_num

theorem deadliftTriggeredPenalties_nonneg (k : Keypoints) :
    0 ≤ deadliftTriggeredPenalties k := by
  rw [deadliftTriggeredPenalties]; split_ifs <;> norm_num

/-- C1: for every pose frame that contains the movement's full required
landmark set, the score returned by analyze equals 100 minus the sum of the
penalties of exactly the threshold rules triggered on that frame, clamped
below at 0, and therefore lies in [0, 100]. -/
theorem analyze_score_clamped_penalty_sum (k : Keypoints) (t rand : ℝ) :
    (hasRequiredPoints k squatRequiredPoints = true →
      (analyze "squat" (some { keypoints := some k, timestamp := t }) rand).score
          = max 0 (100 - squatTriggeredPenalties k) ∧
      0 ≤ (analyze "squat" (some { keypoints := some k, timestamp := t }) rand).score ∧
      (analyze "squat" (some { keypoints := some k, timestamp := t }) rand).score ≤ 100) ∧
    (hasRequiredPoints k benchRequiredPoints = true →
      (analyze "bench" (some { keypoints := some k, timestamp := t }) rand).score
          = max 0 (100 - benchTriggeredPenalties k) ∧
      0 ≤ (analyze "bench" (some { keypoints := some k, timestamp := t }) rand).score ∧
      (analyze "bench" (some { keypoints := some k, timestamp := t }) rand).score ≤ 100) ∧
    (hasRequiredPoints k deadliftRequiredPoints = true →
      (analyze "deadlift" (some { keypoints := some k, timestamp := t }) rand).score
          = max 0 (100 - deadliftTriggeredPenalties k) ∧
      0 ≤ (analyze "deadlift" (some { keypoints := some k, timestamp := t }) rand).score ∧
      (analyze "deadlift" (some { keypoints := some k, timestamp := t }) rand).score ≤ 100) := by
  refine ⟨fun h => ?_, fun h => ?_, fun h => ?_⟩
  · rw [analyze_squat_eq]
    have hs : (analyzeSquat k).score = max 0 (100 - squatTriggeredPenalties k) := by
      simp only [analyzeSquat, h, if_true]
      simp only [tier3_sub]
      simp only [tier1_sub]
      rw [squatTriggeredPenalties]
      congr 1
      ring
    refine ⟨hs, by rw [hs]; exact le_max_left _ _, ?_⟩
    rw [hs]
    exact max_le (by norm_num) (by have := squatTriggeredPenalties_nonneg k; linarith)
  · rw [analyze_bench_eq]
    have hs : (analyzeBench k rand).score = max 0 (100 - benchTriggeredPenalties k) := by
      simp only [analyzeBench, h, if_true]
      simp only [tier3_sub]
      simp only [tier1_sub]
      rw [benchTriggeredPenalties]
      congr 1
      ring
    refine ⟨hs, by rw [hs]; exact le_max_left _ _, ?_⟩
    rw [hs]
    exact max_le (by norm_num) (by have := benchTriggeredPenalties_nonneg k; linarith)
  · rw [analyze_deadlift_eq]
    have hs : (analyzeDeadlift k).score = max 0 (100 - deadliftTriggeredPenalties k) := by
      simp only [analyzeDeadlift, h, if_true]
      simp only [tier3_sub]
      simp only [tier1_sub]
      rw [deadliftTriggeredPenalties]
      congr 1
      ring
    refine ⟨hs, by rw [hs]; exact le_max_left _ _, ?_⟩
    rw [hs]
    exact max_le (by norm_num) (by have := deadliftTriggeredPenalties_nonneg k; linarith)

/-- Witness for C1 at a frame carrying every required landmark. -/
theorem analyze_score_clamped_penalty_sum_witness :
    ((analyze "squat" (some { keypoints := some fullFrame, timestamp := 0 }) 0).score
        = max 0 (100 - squatTriggeredPenalties fullFrame) ∧
      0 ≤ (analyze "squat" (some { keypoints := some fullFrame, timestamp := 0 }) 0).score ∧
      (analyze "squat" (some { keypoints := some fullFrame, timestamp := 0 }) 0).score ≤ 100) ∧
    ((analyze "bench" (some { keypoints := some fullFrame, timestamp := 0 }) 0).score
        = max 0 (100 - benchTriggeredPenalties fullFrame) ∧
      0 ≤ (analyze "bench" (some { keypoints := some fullFrame, timestamp := 0 }) 0).score ∧
      (analyze "bench" (some { keypoints := some fullFrame, timestamp := 0 }) 0).score ≤ 100) ∧
    ((analyze "deadlift" (some { keypoints := some fullFrame, timestamp := 0 }) 0).score
        = max 0 (100 - deadliftTriggeredPenalties fullFrame) ∧
      0 ≤ (analyze "deadlift" (some { keypoints := some fullFrame, timestamp := 0 }) 0).score ∧
      (analyze "deadlift" (some { keypoints := some fullFrame, timestamp := 0 }) 0).score ≤ 100) :=
  ⟨(analyze_score_clamped_penalty_sum fullFrame 0 0).1 (by decide),
   (analyze_score_clamped_penalty_sum fullFrame 0 0).2.1 (by decide),
   (analyze_score_clamped_penalty_sum fullFrame 0 0).2.2 (by decide)⟩

end FormAnalyzer

namespace FormAnalyzer

/-- C2: on any frame missing at least one required landmark, each evaluator
returns score exactly 0, exactly one feedback string, one error string and
no details mapping (the incomplete-pose sentinel, produced before any
geometric computation). -/
theorem analyze_missing_landmark_sentinel (k : Keypoints) (t rand : ℝ) :
    (hasRequiredPoints k squatRequiredPoints = false →
      analyze "squat" (some { keypoints := some k, timestamp := t }) rand =
        { score := 0, feedback := ["Position yourself so your full body is visible"],
          errors := ["Incomplete pose detection"], repCompleted := none, details := none }) ∧
    (hasRequiredPoints k benchRequiredPoints = false →
      analyze "bench" (some { keypoints := some k, timestamp := t }) rand =
        { score := 0, feedback := ["Position camera to show your upper body clearly"],
          errors := ["Incomplete pose detection"], repCompleted := none, details := none }) ∧
    (hasRequiredPoints k deadliftRequiredPoints = false →
      analyze "deadlift" (some { keypoints := some k, timestamp := t }) rand =
        { score := 0,
          feedback := ["Position yourself so your full body is visible from the side"],
          errors := ["Incomplete pose detection"], repCompleted := none, details := none }) := by
  refine ⟨fun h => ?_, fun h => ?_, fun h => ?_⟩
  · rw [analyze_squat_eq]; simp [analyzeSquat, h]
  · rw [analyze_bench_eq]; simp [analyzeBench, h]
  · rw [analyze_deadlift_eq]; simp [analyzeDeadlift, h]

/-- Witness for C2 at the empty frame. -/
theorem analyze_missing_landmark_sentinel_witness :
    analyze "squat" (some { keypoints := some emptyFrame, timestamp := 0 }) 0 =
      { score := 0, feedback := ["Position yourself so your full body is visible"],
        errors := ["Incomplete pose detection"], repCompleted := none, details := none } :=
  (analyze_missing_landmark_sentinel emptyFrame 0 0).1 (by decide)

/-- C6: an unknown movement identifier, a null pose input, or a pose input
without a keypoints mapping all yield the zero-score result with empty
feedback and empty errors. -/
theorem analyze_unknown_or_null_empty (m : String) (p : Option PoseData) (t rand : ℝ) :
    (m ≠ "squat" → m ≠ "bench" → m ≠ "deadlift" →
      analyze m p rand = { score := 0, feedback := [], errors := [] }) ∧
    analyze m none rand = { score := 0, feedback := [], errors := [] } ∧
    analyze m (some { keypoints := none, timestamp := t }) rand =
      { score := 0, feedback := [], errors := [] } := by
  refine ⟨fun h1 h2 h3 => ?_, rfl, rfl⟩
  rcases p with _ | pose
  · rfl
  · obtain ⟨ko, ts⟩ := pose
    rcases ko with _ | k
    · rfl
    · simp [analyze, h1, h2, h3]

/-- Witness for C6 with the movement identifier "lunge". -/
theorem analyze_unknown_or_null_empty_witness :
    analyze "lunge" (some { keypoints := some fullFrame, timestamp := 0 }) 0 =
      { score := 0, feedback := [], errors := [] } :=
  (analyze_unknown_or_null_empty "lunge"
      (some { keypoints := some fullFrame, timestamp := 0 }) 0 0).1
    (by decide) (by decide) (by decide)

/-- C7: on the spec's scenario A squat frame the analyzer returns score 100,
feedback "Excellent depth!" then "Great knee tracking!", no errors, details
depth 0.5, kneeTracking 1, forwardLean 0 and symmetry 0, and repCompleted
false. -/
theorem analyze_scenarioA (t rand : ℝ) :
    analyze "squat" (some { keypoints := some scenarioA, timestamp := t }) rand =
      { score := 100, feedback := ["Excellent depth!", "Great knee tracking!"], errors := [],
        repCompleted := some false,
        details := some [("depth", 0.5), ("kneeTracking", 1), ("forwardLean", 0),
          ("symmetry", 0)] } := by
  have hd : squatDepthRatio scenarioA = 0.5 := by
    simp [squatDepthRatio, get, scenarioA]; norm_num
  have hk : squatKneeCollapseRatio scenarioA = 1 := by
    simp [squatKneeCollapseRatio, get, scenarioA]; norm_num
  have hf : squatForwardLeanMetric scenarioA = 0 := by
    simp [squatForwardLeanMetric, scenarioA]
  have ha : squatAsymmetry scenarioA = 0 := by
    simp [squatAsymmetry, get, scenarioA]
  have hb : detectBottomPosition scenarioA = false := by
    simp [detectBottomPosition, get, scenarioA]
    norm_num
  have hls : scenarioA "leftShoulder" = none := rfl
  have hp : hasRequiredPoints scenarioA squatRequiredPoints = true := by decide
  rw [analyze_squat_eq]
  simp only [analyzeSquat, hp, if_true, hd, hk, hf, ha, hb, hls]
  norm_num

end FormAnalyzer

namespace FormAnalyzer

/-- C3 counterexample: on a degenerate triple whose rays both have zero
length the source's float computation is acos(0/0) = acos(NaN) = NaN, so
calculateAngle does not return a value in [0, 180] there. -/
theorem calculateAngle_zero_vector_counterexample :
    ¬ ∃ r, calculateAngleJS { x := 0.5, y := 0.5 } { x := 0.5, y := 0.5 }
        { x := 0.5, y := 0.5 } = some r ∧ 0 ≤ r ∧ r ≤ 180 := by
  rintro ⟨r, hr, -, -⟩
  have hnone : calculateAngleJS { x := 0.5, y := 0.5 } { x := 0.5, y := 0.5 }
      { x := 0.5, y := 0.5 } = none := by
    simp [calculateAngleJS]
  rw [hnone] at hr
  exact Option.noConfusion hr

/-- C3 as amended: whenever both rays from the vertex have nonzero length,
calculateAngle returns (without raising) a value in [0, 180]; when either
ray has zero length the float computation yields NaN instead of a number in
[0, 180] (still raising no exception). -/
theorem calculateAngle_range (point1 point2 point3 : KeyPoint) :
    ((point1.x ≠ point2.x ∨ point1.y ≠ point2.y) →
     (point3.x ≠ point2.x ∨ point3.y ≠ point2.y) →
      ∃ r, calculateAngleJS point1 point2 point3 = some r ∧ 0 ≤ r ∧ r ≤ 180) ∧
    (((point1.x = point2.x ∧ point1.y = point2.y) ∨
      (point3.x = point2.x ∧ point3.y = point2.y)) →
      calculateAngleJS point1 point2 point3 = none) := by
  constructor
  · intro h1 h3
    have hm1 : 0 < Real.sqrt ((point1.x - point2.x) ^ 2 + (point1.y - point2.y) ^ 2) := by
      apply Real.sqrt_pos.mpr
      rcases h1 with h | h
      · exact add_pos_of_pos_of_nonneg
          (pow_two_pos_of_ne_zero (sub_ne_zero.mpr h)) (sq_nonneg _)
      · exact add_pos_of_nonneg_of_pos (sq_nonneg _)
          (pow_two_pos_of_ne_zero (sub_ne_zero.mpr h))
    have hm2 : 0 < Real.sqrt ((point3.x - point2.x) ^ 2 + (point3.y - point2.y) ^ 2) := by
      apply Real.sqrt_pos.mpr
      rcases h3 with h | h
      · exact add_pos_of_pos_of_nonneg
          (pow_two_pos_of_ne_zero (sub_ne_zero.mpr h)) (sq_nonneg _)
      · exact add_pos_of_nonneg_of_pos (sq_nonneg _)
          (pow_two_pos_of_ne_zero (sub_ne_zero.mpr h))
    have hmm : Real.sqrt ((point1.x - point2.x) ^ 2 + (point1.y - point2.y) ^ 2) *
        Real.sqrt ((point3.x - point2.x) ^ 2 + (point3.y - point2.y) ^ 2) ≠ 0 :=
      ne_of_gt (mul_pos hm1 hm2)
    rw [calculateAngleJS]
    simp only [if_neg hmm]
    refine ⟨_, rfl, ?_, ?_⟩
    · exact div_nonneg (mul_nonneg (Real.arccos_nonneg _) (by norm_num)) Real.pi_pos.le
    · rw [div_le_iff₀ Real.pi_pos]
      have := Real.arccos_le_pi (max (-1) (min 1
        (((point1.x - point2.x) * (point3.x - point2.x) +
          (point1.y - point2.y) * (point3.y - point2.y)) /
         (Real.sqrt ((point1.x - point2.x) ^ 2 + (point1.y - point2.y) ^ 2) *
          Real.sqrt ((point3.x - point2.x) ^ 2 + (point3.y - point2.y) ^ 2)))))
      have hpi := Real.pi_pos
      nlinarith [this]
  · rintro (⟨hx, hy⟩ | ⟨hx, hy⟩) <;> simp [calculateAngleJS, hx, hy]

/-- Witness for C3 as amended, at a right-angle triple with unit rays. -/
theorem calculateAngle_range_witness :
    ∃ r, calculateAngleJS { x := 1, y := 0 } { x := 0, y := 0 } { x := 0, y := 1 } =
        some r ∧ 0 ≤ r ∧ r ≤ 180 :=
  (calculateAngle_range { x := 1, y := 0 } { x := 0, y := 0 } { x := 0, y := 1 }).1
    (Or.inl (by norm_num)) (Or.inr (by norm_num))

end FormAnalyzer

namespace FormAnalyzer

/-- C4 counterexample: on a squat frame whose ankles sit at different
heights, the depth value the analyzer reports is not the spec's ratio
(avg knee - avg hip) / (avg ankle - avg hip): the source divides by
(leftAnkle.y - avg hip) instead. -/
theorem squat_depth_ratio_counterexample :
    hasRequiredPoints unevenAnkleFrame squatRequiredPoints = true ∧
    ¬ ((analyze "squat" (some { keypoints := some unevenAnkleFrame, timestamp := 0 }) 0).details.bind
        (fun d => List.lookup "depth" d) = some (squatDepthRatioSpec unevenAnkleFrame)) := by
  refine ⟨by decide, fun hc => ?_⟩
  have hp : hasRequiredPoints unevenAnkleFrame squatRequiredPoints = true := by decide
  have hd : squatDepthRatio unevenAnkleFrame = 0.5 := by
    simp [squatDepthRatio, get, unevenAnkleFrame]; norm_num
  have hspec : squatDepthRatioSpec unevenAnkleFrame = 2 / 3 := by
    simp [squatDepthRatioSpec, get, unevenAnkleFrame]; norm_num
  rw [analyze_squat_eq] at hc
  simp only [analyzeSquat, hp, if_true, hd, hspec] at hc
  simp [List.lookup] at hc
  norm_num at hc

end FormAnalyzer

namespace FormAnalyzer

set_option maxHeartbeats 1000000 in
/-- C4 as amended: the depth ratio reported in details under "depth" and
governing the depth rule equals (avg knee height - avg hip height) divided
by (left ankle height - avg hip height). -/
theorem squat_depth_ratio_left_ankle (k : Keypoints) (t rand : ℝ)
    (h : hasRequiredPoints k squatRequiredPoints = true) :
    (analyze "squat" (some { keypoints := some k, timestamp := t }) rand).details.bind
        (fun d => List.lookup "depth" d) =
      some ((((get k "leftKnee").y + (get k "rightKnee").y) / 2 -
             ((get k "leftHip").y + (get k "rightHip").y) / 2) /
            ((get k "leftAnkle").y - ((get k "leftHip").y + (get k "rightHip").y) / 2)) ∧
    ("Squat deeper - hips need to go below knee level" ∈
        (analyze "squat" (some { keypoints := some k, timestamp := t }) rand).errors ↔
      squatDepthRatio k < 0.1) := by
  rw [analyze_squat_eq]
  constructor
  · simp only [analyzeSquat, h, if_true]
    simp [List.lookup]
    rw [squatDepthRatio]
  · simp only [analyzeSquat, h, if_true]
    split_ifs <;> simp_all
end FormAnalyzer

namespace FormAnalyzer

/-- Witness for C4 as amended, at the scenario A frame. -/
theorem squat_depth_ratio_left_ankle_witness :
    (analyze "squat" (some { keypoints := some scenarioA, timestamp := 0 }) 0).details.bind
        (fun d => List.lookup "depth" d) =
      some ((((get scenarioA "leftKnee").y + (get scenarioA "rightKnee").y) / 2 -
             ((get scenarioA "leftHip").y + (get scenarioA "rightHip").y) / 2) /
            ((get scenarioA "leftAnkle").y -
              ((get scenarioA "leftHip").y + (get scenarioA "rightHip").y) / 2)) ∧
    ("Squat deeper - hips need to go below knee level" ∈
        (analyze "squat" (some { keypoints := some scenarioA, timestamp := 0 }) 0).errors ↔
      squatDepthRatio scenarioA < 0.1) :=
  squat_depth_ratio_left_ankle scenarioA 0 0 (by decide)

theorem analyzeBench_score_rand (k : Keypoints) (r1 r2 : ℝ) :
    (analyzeBench k r1).score = (analyzeBench k r2).score := by
  unfold analyzeBench; split <;> rfl

theorem analyzeBench_feedback_rand (k : Keypoints) (r1 r2 : ℝ) :
    (analyzeBench k r1).feedback = (analyzeBench k r2).feedback := by
  unfold analyzeBench; split <;> rfl

theorem analyzeBench_errors_rand (k : Keypoints) (r1 r2 : ℝ) :
    (analyzeBench k r1).errors = (analyzeBench k r2).errors := by
  unfold analyzeBench; split <;> rfl

theorem analyzeBench_details_rand (k : Keypoints) (r1 r2 : ℝ) :
    (analyzeBench k r1).details = (analyzeBench k r2).details := by
  unfold analyzeBench; split <;> rfl

/-- C5 counterexample: two invocations of analyze on the same bench frame
can return different results, because detectPressMovement consumes
Math.random(); here the samples 1 and 0 flip repCompleted. -/
theorem analyze_rand_counterexample :
    hasRequiredPoints fullFrame benchRequiredPoints = true ∧
    analyze "bench" (some { keypoints := some fullFrame, timestamp := 0 }) 1 ≠
      analyze "bench" (some { keypoints := some fullFrame, timestamp := 0 }) 0 := by
  have hp : hasRequiredPoints fullFrame benchRequiredPoints = true := by decide
  refine ⟨hp, fun hc => ?_⟩
  have h1 : (analyze "bench" (some { keypoints := some fullFrame, timestamp := 0 }) 1).repCompleted
      = some true := by
    rw [analyze_bench_eq]
    simp only [analyzeBench, hp, if_true]
    simp [detectPressMovement]
    norm_num
  have h0 : (analyze "bench" (some { keypoints := some fullFrame, timestamp := 0 }) 0).repCompleted
      = some false := by
    rw [analyze_bench_eq]
    simp only [analyzeBench, hp, if_true]
    simp [detectPressMovement]
    norm_num
  rw [hc, h0] at h1
  exact Option.noConfusion h1 fun h => Bool.noConfusion h

/-- C5 as amended: analyze is deterministic for squat and deadlift, and for
every movement all result components except repCompleted are independent of
the Math.random() sample; bench repCompleted alone depends on it. -/
theorem analyze_deterministic_except_bench_rep (m : String) (p : Option PoseData)
    (r1 r2 : ℝ) :
    analyze "squat" p r1 = analyze "squat" p r2 ∧
    analyze "deadlift" p r1 = analyze "deadlift" p r2 ∧
    (analyze m p r1).score = (analyze m p r2).score ∧
    (analyze m p r1).feedback = (analyze m p r2).feedback ∧
    (analyze m p r1).errors = (analyze m p r2).errors ∧
    (analyze m p r1).details = (analyze m p r2).details := by
  rcases p with _ | ⟨ko, ts⟩
  · exact ⟨rfl, rfl, rfl, rfl, rfl, rfl⟩
  rcases ko with _ | k
  · exact ⟨rfl, rfl, rfl, rfl, rfl, rfl⟩
  refine ⟨rfl, rfl, ?_, ?_, ?_, ?_⟩ <;>
    · simp only [analyze]
      split_ifs <;>
        first
          | rfl
          | exact analyzeBench_score_rand k r1 r2
          | exact analyzeBench_feedback_rand k r1 r2
          | exact analyzeBench_errors_rand k r1 r2
          | exact analyzeBench_details_rand k r1 r2

end FormAnalyzer

namespace FormAnalyzer

/-- C8: swapping every left landmark with its right counterpart leaves the
symmetry metrics unchanged; those metrics are exactly the values the
evaluators report under the details key "symmetry". -/
theorem symmetry_swap_invariant (k : Keypoints) (t rand : ℝ) :
    (hasRequiredPoints k squatRequiredPoints = true →
      squatAsymmetry (swapLR k) = squatAsymmetry k ∧
      (analyze "squat" (some { keypoints := some k, timestamp := t }) rand).details =
        some [("depth", squatDepthRatio k), ("kneeTracking", squatKneeCollapseRatio k),
          ("forwardLean", squatForwardLeanMetric k), ("symmetry", squatAsymmetry k)]) ∧
    (hasRequiredPoints k benchRequiredPoints = true →
      benchAsymmetry (swapLR k) = benchAsymmetry k ∧
      (analyze "bench" (some { keypoints := some k, timestamp := t }) rand).details =
        some [("elbowAngle", benchAvgElbowAngle k), ("barPath", benchBarDeviation k),
          ("symmetry", benchAsymmetry k)]) := by
  constructor
  · intro h
    constructor
    · have e1 : get (swapLR k) "leftKnee" = get k "rightKnee" := rfl
      have e2 : get (swapLR k) "leftHip" = get k "rightHip" := rfl
      have e3 : get (swapLR k) "rightKnee" = get k "leftKnee" := rfl
      have e4 : get (swapLR k) "rightHip" = get k "leftHip" := rfl
      rw [squatAsymmetry, squatAsymmetry, e1, e2, e3, e4, abs_sub_comm, max_comm]
    · rw [analyze_squat_eq]
      simp only [analyzeSquat, h, if_true]
  · intro h
    constructor
    · have e1 : get (swapLR k) "leftWrist" = get k "rightWrist" := rfl
      have e2 : get (swapLR k) "leftShoulder" = get k "rightShoulder" := rfl
      have e3 : get (swapLR k) "rightWrist" = get k "leftWrist" := rfl
      have e4 : get (swapLR k) "rightShoulder" = get k "leftShoulder" := rfl
      rw [benchAsymmetry, benchAsymmetry, e1, e2, e3, e4, abs_sub_comm, max_comm]
    · rw [analyze_bench_eq]
      simp only [analyzeBench, h, if_true]

/-- Witness for C8 at a frame carrying every required landmark. -/
theorem symmetry_swap_invariant_witness :
    (squatAsymmetry (swapLR fullFrame) = squatAsymmetry fullFrame ∧
      (analyze "squat" (some { keypoints := some fullFrame, timestamp := 0 }) 0).details =
        some [("depth", squatDepthRatio fullFrame),
          ("kneeTracking", squatKneeCollapseRatio fullFrame),
          ("forwardLean", squatForwardLeanMetric fullFrame),
          ("symmetry", squatAsymmetry fullFrame)]) ∧
    (benchAsymmetry (swapLR fullFrame) = benchAsymmetry fullFrame ∧
      (analyze "bench" (some { keypoints := some fullFrame, timestamp := 0 }) 0).details =
        some [("elbowAngle", benchAvgElbowAngle fullFrame),
          ("barPath", benchBarDeviation fullFrame),
          ("symmetry", benchAsymmetry fullFrame)]) :=
  ⟨(symmetry_swap_invariant fullFrame 0 0).1 (by decide),
   (symmetry_swap_invariant fullFrame 0 0).2 (by decide)⟩

/-- C9: on a deadlift frame with all required landmarks, repCompleted is
true exactly when the horizontal offset between shoulder-center and
hip-center is strictly below 0.05. -/
theorem deadlift_rep_upright (k : Keypoints) (t rand : ℝ)
    (h : hasRequiredPoints k deadliftRequiredPoints = true) :
    (analyze "deadlift" (some { keypoints := some k, timestamp := t }) rand).repCompleted =
        some true ↔
      |((get k "leftShoulder").x + (get k "rightShoulder").x) / 2 -
        ((get k "leftHip").x + (get k "rightHip").x) / 2| < 0.05 := by
  rw [analyze_deadlift_eq]
  simp only [analyzeDeadlift, h, if_true]
  simp [detectDeadliftMovement]

/-- Witness for C9 at a frame carrying every required landmark. -/
theorem deadlift_rep_upright_witness :
    (analyze "deadlift" (some { keypoints := some fullFrame, timestamp := 0 }) 0).repCompleted =
        some true ↔
      |((get fullFrame "leftShoulder").x + (get fullFrame "rightShoulder").x) / 2 -
        ((get fullFrame "leftHip").x + (get fullFrame "rightHip").x) / 2| < 0.05 :=
  deadlift_rep_upright fullFrame 0 0 (by decide)

end FormAnalyzer

namespace FormAnalyzer

/-- C10 counterexample: a horizontal shoulder-to-hip vector does not always
yield the good-back feedback: with the shoulder-center left of the
hip-center at equal height, atan2 gives 180 degrees and the back-rounding
error fires. -/
theorem deadlift_horizontal_counterexample :
    hasRequiredPoints horizontalBackFrame deadliftRequiredPoints = true ∧
    ((get horizontalBackFrame "leftShoulder").y + (get horizontalBackFrame "rightShoulder").y) / 2 =
      ((get horizontalBackFrame "leftHip").y + (get horizontalBackFrame "rightHip").y) / 2 ∧
    "Good back position!" ∉
      (analyze "deadlift"
        (some { keypoints := some horizontalBackFrame, timestamp := 0 }) 0).feedback ∧
    "Back rounding detected - keep your back straight" ∈
      (analyze "deadlift"
        (some { keypoints := some horizontalBackFrame, timestamp := 0 }) 0).errors := by
  have hp : hasRequiredPoints horizontalBackFrame deadliftRequiredPoints = true := by decide
  have hba : deadliftBackAngle horizontalBackFrame = 180 := by
    have h1 : atan2 0 (-(0.4 : ℝ)) = Real.pi := by
      rw [atan2]
      norm_num [Real.arctan_zero]
    have h2 : deadliftBackAngle horizontalBackFrame =
        atan2 0 (-(0.4 : ℝ)) * 180 / Real.pi := by
      rw [deadliftBackAngle]
      simp [get, horizontalBackFrame]
      norm_num
    rw [h2, h1, mul_comm, mul_div_assoc, div_self Real.pi_ne_zero, mul_one]
  have hh : deadliftHipHinge horizontalBackFrame = 0.4 := by
    rw [deadliftHipHinge]
    simp [get, horizontalBackFrame]
    norm_num
    rw [show (4 : ℝ) = 2 ^ 2 by norm_num, Real.sqrt_sq (by norm_num : (0:ℝ) ≤ 2),
      show (25 : ℝ) = 5 ^ 2 by norm_num, Real.sqrt_sq (by norm_num : (0:ℝ) ≤ 5)]
  have hankle : (horizontalBackFrame "leftAnkle").isSome = false := rfl
  have habs : |(180 : ℝ)| = 180 := abs_of_nonneg (by norm_num)
  refine ⟨hp, by simp [get, horizontalBackFrame], ?_, ?_⟩
  · rw [analyze_deadlift_eq]
    simp only [analyzeDeadlift, hp, if_true, hba, hh, hankle, habs]
    norm_num
    decide
  · rw [analyze_deadlift_eq]
    simp only [analyzeDeadlift, hp, if_true, hba, hh, hankle, habs]
    norm_num

end FormAnalyzer

namespace FormAnalyzer

theorem atan2_zero_right_of_neg_left (y : ℝ) (hy : y < 0) : atan2 y 0 = -(Real.pi / 2) := by
  rw [atan2, if_neg (lt_irrefl 0), if_neg (lt_irrefl 0), if_neg (not_lt.mpr hy.le), if_pos hy]

theorem atan2_zero_left_of_pos_right (x : ℝ) (hx : 0 < x) : atan2 0 x = 0 := by
  rw [atan2, if_pos hx, zero_div, Real.arctan_zero]

theorem atan2_zero_zero : atan2 0 0 = 0 := by
  rw [atan2, if_neg (lt_irrefl 0), if_neg (lt_irrefl 0), if_neg (lt_irrefl 0),
    if_neg (lt_irrefl 0)]

set_option maxHeartbeats 1000000 in
/-- C10 as amended: with the shoulder-center directly above the hip-center
the back angle is 90 degrees in absolute value and the back-rounding error
fires; a horizontal shoulder-to-hip vector yields the good-back feedback
with no back-rounding error provided the shoulder-center x is not less than
the hip-center x (pointing it the other way gives 180 degrees and the
error). -/
theorem deadlift_back_angle_vertical_horizontal (k : Keypoints) (t rand : ℝ)
    (h : hasRequiredPoints k deadliftRequiredPoints = true) :
    (((get k "leftShoulder").x + (get k "rightShoulder").x) / 2 =
        ((get k "leftHip").x + (get k "rightHip").x) / 2 →
     ((get k "leftShoulder").y + (get k "rightShoulder").y) / 2 <
        ((get k "leftHip").y + (get k "rightHip").y) / 2 →
      (analyze "deadlift" (some { keypoints := some k, timestamp := t }) rand).details =
        some [("backAngle", 90), ("hipHinge", deadliftHipHinge k)] ∧
      "Back rounding detected - keep your back straight" ∈
        (analyze "deadlift" (some { keypoints := some k, timestamp := t }) rand).errors) ∧
    (((get k "leftShoulder").y + (get k "rightShoulder").y) / 2 =
        ((get k "leftHip").y + (get k "rightHip").y) / 2 →
     ((get k "leftHip").x + (get k "rightHip").x) / 2 ≤
        ((get k "leftShoulder").x + (get k "rightShoulder").x) / 2 →
      "Good back position!" ∈
        (analyze "deadlift" (some { keypoints := some k, timestamp := t }) rand).feedback ∧
      "Back rounding detected - keep your back straight" ∉
        (analyze "deadlift" (some { keypoints := some k, timestamp := t }) rand).errors) := by
  rw [analyze_deadlift_eq]
  constructor
  · intro hxeq hylt
    have hx0 : ((get k "leftShoulder").x + (get k "rightShoulder").x) / 2 -
        ((get k "leftHip").x + (get k "rightHip").x) / 2 = 0 := sub_eq_zero.mpr hxeq
    have hy0 : ((get k "leftShoulder").y + (get k "rightShoulder").y) / 2 -
        ((get k "leftHip").y + (get k "rightHip").y) / 2 < 0 := sub_neg.mpr hylt
    have hba : deadliftBackAngle k = -90 := by
      rw [deadliftBackAngle]
      rw [hx0, atan2_zero_right_of_neg_left _ hy0, div_eq_iff Real.pi_ne_zero]
      ring
    have habs : |deadliftBackAngle k| = 90 := by
      rw [hba, abs_neg, abs_of_nonneg (by norm_num : (0:ℝ) ≤ 90)]
    constructor
    · simp only [analyzeDeadlift, h, if_true, habs]
    · simp only [analyzeDeadlift, h, if_true, habs]
      norm_num
      split_ifs <;> decide
  · intro hyeq hxle
    have hy0 : ((get k "leftShoulder").y + (get k "rightShoulder").y) / 2 -
        ((get k "leftHip").y + (get k "rightHip").y) / 2 = 0 := sub_eq_zero.mpr hyeq
    have hxd : 0 ≤ ((get k "leftShoulder").x + (get k "rightShoulder").x) / 2 -
        ((get k "leftHip").x + (get k "rightHip").x) / 2 := sub_nonneg.mpr hxle
    have hba : deadliftBackAngle k = 0 := by
      rw [deadliftBackAngle, hy0]
      rcases hxd.lt_or_eq with hpos | hzero
      · rw [atan2_zero_left_of_pos_right _ hpos, zero_mul, zero_div]
      · rw [← hzero, atan2_zero_zero, zero_mul, zero_div]
    have habs : |deadliftBackAngle k| = 0 := by rw [hba, abs_zero]
    constructor
    · simp only [analyzeDeadlift, h, if_true, habs]
      norm_num
      split_ifs <;> decide
    · simp only [analyzeDeadlift, h, if_true, habs]
      norm_num
      split_ifs <;> decide

end FormAnalyzer

namespace FormAnalyzer

/-- Witness for C10 as amended: an upright-back frame for the vertical case
and a lockout frame for the horizontal case. -/
theorem deadlift_back_angle_vertical_horizontal_witness :
    ((analyze "deadlift" (some { keypoints := some uprightBackFrame, timestamp := 0 }) 0).details =
        some [("backAngle", 90), ("hipHinge", deadliftHipHinge uprightBackFrame)] ∧
      "Back rounding detected - keep your back straight" ∈
        (analyze "deadlift"
          (some { keypoints := some uprightBackFrame, timestamp := 0 }) 0).errors) ∧
    ("Good back position!" ∈
        (analyze "deadlift"
          (some { keypoints := some lockoutBackFrame, timestamp := 0 }) 0).feedback ∧
      "Back rounding detected - keep your back straight" ∉
        (analyze "deadlift"
          (some { keypoints := some lockoutBackFrame, timestamp := 0 }) 0).errors) :=
  ⟨(deadlift_back_angle_vertical_horizontal uprightBackFrame 0 0 (by decide)).1
      (by simp [get, uprightBackFrame]) (by simp [get, uprightBackFrame]; norm_num),
   (deadlift_back_angle_vertical_horizontal lockoutBackFrame 0 0 (by decide)).2
      (by simp [get, lockoutBackFrame]) (by simp [get, lockoutBackFrame]; norm_num)⟩

end FormAnalyzer
